import Mathlib

/-!
# GroupCallSettings

A shallow embedding of `src/Components/Calls/GroupCallSettings.js` (the group-call
settings panel of telegram-react) and the properties of its handlers.

Conventions of the embedding.

* A JavaScript value that may be `null`/`undefined` is an `Option`; a string that is
  tested for truthiness is falsy when it is absent or empty.
* `this.state` is the record `State`; a `setState` call is a record update.
* Calls on collaborators that are not part of the component (`CallStore`, `getStream`,
  `copy`, `showSnackbar`, `onClose`, `MediaStreamTrack.stop`) are recorded, in program
  order, in a list of `Effect`s.
* What an awaited collaborator answers (`getStream`, `CallStore.replaceInputAudioDevice`)
  is a parameter of the handler; a rejected promise makes the handler end `rejected`.
* The handlers `onKeyDown`, `onDeviceChange` and `handleEnd` are not embedded; no
  statement below concerns them.
-/

namespace GroupCallSettings

/-! ## Browser and store data -/

/-- A `MediaDeviceInfo` descriptor as returned by `enumerateDevices`. -/
structure MediaDeviceInfo where
  deviceId : String
  kind : String
  label : String
  deriving DecidableEq, Repr

/-- A `MediaStreamTrack`: `kind` is `"audio"` or `"video"`, `settingsDeviceId` is
`getSettings().deviceId`. -/
structure MediaStreamTrack where
  id : Nat
  kind : String
  settingsDeviceId : Option String
  deriving DecidableEq, Repr

/-- A `MediaStream` with its tracks. -/
structure MediaStream where
  id : Nat
  tracks : List MediaStreamTrack
  deriving DecidableEq, Repr

/-- The method `MediaStream.getAudioTracks()`. -/
def MediaStream.getAudioTracks (s : MediaStream) : List MediaStreamTrack :=
  s.tracks.filter (fun x => x.kind == "audio")

/-- The method `MediaStream.getVideoTracks()`. -/
def MediaStream.getVideoTracks (s : MediaStream) : List MediaStreamTrack :=
  s.tracks.filter (fun x => x.kind == "video")

/-- The TDLib `groupCall` object, restricted to the fields the panel reads. -/
structure GroupCall where
  id : Int
  mute_new_participants : Bool
  allowed_change_mute_new_participants : Bool
  deriving DecidableEq, Repr

/-- The object `currentGroupCall.streamManager`. -/
structure StreamManager where
  outputStream : Option MediaStream
  deriving DecidableEq, Repr

/-- The object `CallStore.currentGroupCall`. -/
structure CurrentGroupCall where
  chatId : Int
  groupCallId : Int
  streamManager : Option StreamManager
  deriving DecidableEq, Repr

/-- The parts of the process-wide `CallStore` that the panel reads. -/
structure CallStore where
  devices : Option (List MediaDeviceInfo)
  currentGroupCall : Option CurrentGroupCall
  getOutputDeviceId : Option String
  getInputAudioDeviceId : Option String
  getInputVideoDeviceId : Option String
  get : Option Int → Option GroupCall

/-- A value object of the `OptionStore`. -/
structure OptionValue where
  value : String
  deriving DecidableEq, Repr

/-- The ambient functions of the component: the translation function `t`,
`getChatUsername`, `canManageVoiceChats` and `OptionStore.get`. -/
structure Env where
  t : String → String
  getChatUsername : Int → Option String
  canManageVoiceChats : Int → Bool
  optionGet : String → Option OptionValue

/-! ## Component props and state -/

/-- The props of the component; `onClose` records whether a callback was passed. -/
structure Props where
  groupCallId : Option Int
  onClose : Bool
  deriving DecidableEq, Repr

/-- The record `this.state`. -/
structure State where
  prevGroupCallId : Option Int
  devices : Option (List MediaDeviceInfo)
  outputDeviceId : Option String
  output : List MediaDeviceInfo
  inputAudioDeviceId : Option String
  inputAudio : List MediaDeviceInfo
  inputVideoDeviceId : Option String
  inputVideo : List MediaDeviceInfo
  inputAudioStream : Option MediaStream
  openDeviceSelect : Option String
  muteNewParticipants : Option Bool
  allowedChangeMuteNewParticipants : Option Bool
  deriving DecidableEq, Repr

/-- The state set by the constructor, `this.state = { }`; the device lists, which are
undefined until the first `getDerivedStateFromProps`, are empty here. -/
def initialState : State :=
  { prevGroupCallId := none, devices := none, outputDeviceId := none, output := [],
    inputAudioDeviceId := none, inputAudio := [], inputVideoDeviceId := none,
    inputVideo := [], inputAudioStream := none, openDeviceSelect := none,
    muteNewParticipants := none, allowedChangeMuteNewParticipants := none }

/-- A call made on a collaborator of the component. -/
inductive Effect where
  | stopTrack (track : MediaStreamTrack)
  | getStream (deviceId : String)
  | consoleLog (deviceId : String) (stream : MediaStream)
  | setOutputDeviceId (deviceId : String)
  | replaceInputAudioDevice (stream : MediaStream)
  | toggleMuteNewParticipants (groupCallId : Option Int) (value : Bool)
  | copy (text : String)
  | showSnackbar (message : String)
  | onClose
  deriving DecidableEq, Repr

/-- How a handler ends: normally, or with the error of a rejected promise. -/
inductive Completion where
  | resolved
  | rejected (error : String)
  deriving DecidableEq, Repr

/-- The outcome of a handler: the state it leaves, the calls it made, how it ended. -/
structure Result where
  state : State
  effects : List Effect
  completion : Completion
  deriving DecidableEq, Repr

/-! ## JavaScript truthiness -/

/-- Truthiness of a string that may be absent: `null`, `undefined` and `''` are falsy. -/
def truthyStr : Option String → Bool
  | none => false
  | some s => s != ""

/-- Truthiness of a boolean that may be absent. -/
def truthyBool : Option Bool → Bool
  | none => false
  | some b => b

/-! ## The component -/

/-- The static method `getDerivedStateFromProps`, with its result merged into the state. -/
def getDerivedStateFromProps (store : CallStore) (props : Props) (state : State) : State :=
  if state.prevGroupCallId != props.groupCallId then
    let devices := store.devices
    let outputDeviceId := store.getOutputDeviceId
    let output := (devices.getD []).filter (fun x => x.kind == "audiooutput")
    let inputAudioDeviceId := store.getInputAudioDeviceId
    let inputAudio := (devices.getD []).filter (fun x => x.kind == "audioinput")
    let inputVideoDeviceId := store.getInputVideoDeviceId
    let inputVideo := (devices.getD []).filter (fun x => x.kind == "videoinput")
    let derived : State :=
      { state with
        prevGroupCallId := props.groupCallId
        devices := devices
        outputDeviceId := outputDeviceId
        output := output
        inputAudioDeviceId := inputAudioDeviceId
        inputAudio := inputAudio
        inputVideoDeviceId := inputVideoDeviceId
        inputVideo := inputVideo }
    match store.get props.groupCallId with
    | some groupCall =>
      { derived with
        muteNewParticipants := some groupCall.mute_new_participants
        allowedChangeMuteNewParticipants := some groupCall.allowed_change_mute_new_participants }
    | none => derived
  else state

/-- The handler `onUpdateGroupCall`; `group_call` is the field of the update event. -/
def onUpdateGroupCall (props : Props) (group_call : Option GroupCall) (state : State) : State :=
  match group_call with
  | none => state
  | some g =>
    if some g.id != props.groupCallId then state
    else
      { state with
        muteNewParticipants := some g.mute_new_participants
        allowedChangeMuteNewParticipants := some g.allowed_change_mute_new_participants }

/-- The handler `handleOutputChange`; `value` is `event.target.value`. -/
def handleOutputChange (value : String) (state : State) : State :=
  { state with outputDeviceId := some value }

/-- The handler `handleCopyLink`. -/
def handleCopyLink (env : Env) (store : CallStore) : List Effect :=
  let chatId := match store.currentGroupCall with
    | some currentGroupCall => currentGroupCall.chatId
    | none => 0
  let username := env.getChatUsername chatId
  if !truthyStr username then []
  else
    let usernameLink := match env.optionGet "t_me_url" with
      | some telegramUrlOption => telegramUrlOption.value
      | none => "https://telegram.org/"
    [Effect.copy (usernameLink ++ username.getD ""), Effect.showSnackbar (env.t "LinkCopied")]

/-- The handler `handleOpenDeviceSelect`. -/
def handleOpenDeviceSelect (type : String) (state : State) : State :=
  { state with openDeviceSelect := some type }

/-- The handler `handleCloseDeviceSelect`. -/
def handleCloseDeviceSelect (state : State) : State :=
  { state with openDeviceSelect := none }

/-- The handler `handleSelectDevice`; `getStream deviceId` is what the awaited request
`getStream` answers when asked for audio from exactly the device `deviceId` and for no
video. When the answer has no audio track, line 246 (`getAudioTracks()[0].getSettings()`)
throws a `TypeError`. -/
def handleSelectDevice (store : CallStore) (getStream : String → Except String MediaStream)
    (type : String) (deviceId : String) (state : State) : Result :=
  let state := handleCloseDeviceSelect state
  if type == "output" then
    { state := { state with outputDeviceId := some deviceId }
      effects := [Effect.setOutputDeviceId deviceId]
      completion := Completion.resolved }
  else if type == "inputAudio" then
    match store.currentGroupCall with
    | none => { state := state, effects := [], completion := Completion.resolved }
    | some currentGroupCall =>
      match currentGroupCall.streamManager with
      | none => { state := state, effects := [], completion := Completion.resolved }
      | some streamManager =>
        let active : Bool := match streamManager.outputStream with
          | some outputStream =>
            match outputStream.getAudioTracks.head? with
            | some audioTrack => audioTrack.settingsDeviceId == some deviceId
            | none => false
          | none => false
        if active then { state := state, effects := [], completion := Completion.resolved }
        else if state.inputAudioDeviceId == some deviceId then
          { state := state, effects := [], completion := Completion.resolved }
        else
          let stops : List Effect := match state.inputAudioStream with
            | some inputAudioStream => inputAudioStream.getAudioTracks.map Effect.stopTrack
            | none => []
          match getStream deviceId with
          | Except.error e =>
            { state := state
              effects := stops ++ [Effect.getStream deviceId]
              completion := Completion.rejected e }
          | Except.ok stream =>
            match stream.getAudioTracks.head? with
            | none =>
              { state := state
                effects := stops ++ [Effect.getStream deviceId]
                completion := Completion.rejected "TypeError" }
            | some _ =>
              { state := { state with inputAudioDeviceId := some deviceId
                                      inputAudioStream := some stream }
                effects := stops ++ [Effect.getStream deviceId, Effect.consoleLog deviceId stream]
                completion := Completion.resolved }
  else { state := state, effects := [], completion := Completion.resolved }

/-- The handler `handleMuteNewParticipants`. -/
def handleMuteNewParticipants (props : Props) (state : State) : State × List Effect :=
  let muteNewParticipants := state.muteNewParticipants
  ({ state with muteNewParticipants := some (!truthyBool muteNewParticipants) },
   [Effect.toggleMuteNewParticipants props.groupCallId (!truthyBool muteNewParticipants)])

/-- The handler `handleDone`; `replaceInputAudioDevice s` is what the awaited call
`CallStore.replaceInputAudioDevice(s)` answers. -/
def handleDone (replaceInputAudioDevice : MediaStream → Except String Unit)
    (props : Props) (state : State) : Result :=
  let close : List Effect := if props.onClose then [Effect.onClose] else []
  match state.inputAudioStream with
  | some inputAudioStream =>
    match replaceInputAudioDevice inputAudioStream with
    | Except.error e =>
      { state := state
        effects := [Effect.replaceInputAudioDevice inputAudioStream]
        completion := Completion.rejected e }
    | Except.ok _ =>
      { state := state
        effects := Effect.replaceInputAudioDevice inputAudioStream :: close
        completion := Completion.resolved }
  | none => { state := state, effects := close, completion := Completion.resolved }

/-! ## Rendering -/

/-- The constant `outputDeviceInfo` of `render`. -/
def outputDeviceInfo (state : State) : Option MediaDeviceInfo :=
  state.output.find? (fun x =>
    some x.deviceId == state.outputDeviceId
      || (!truthyStr state.outputDeviceId && x.deviceId == "default"))

/-- The constant `outputString` of `render`. -/
def outputString (t : String → String) (state : State) : String :=
  match outputDeviceInfo state with
  | none => t "Default"
  | some info =>
    if info.deviceId == "default" || info.label == "" then t "Default" else info.label

/-- The constant `inputAudioDeviceInfo` of `render`. -/
def inputAudioDeviceInfo (state : State) : Option MediaDeviceInfo :=
  state.inputAudio.find? (fun x =>
    some x.deviceId == state.inputAudioDeviceId
      || (!truthyStr state.inputAudioDeviceId && x.deviceId == "default"))

/-- The constant `inputAudioString` of `render`. -/
def inputAudioString (t : String → String) (state : State) : String :=
  match inputAudioDeviceInfo state with
  | none => t "Default"
  | some info =>
    if info.deviceId == "default" || info.label == "" then t "Default" else info.label

/-- The `Switch` element of the main panel. -/
structure MuteSwitch where
  checked : Option Bool
  deriving DecidableEq, Repr

/-- The device picker rendered while `openDeviceSelect` is set. -/
structure DevicePicker where
  title : String
  type : String
  items : List MediaDeviceInfo
  deriving DecidableEq, Repr

/-- The main panel: the optional mute switch, the two device labels, and whether the
invite-link and end-call items are present. -/
structure MainPanel where
  muteSwitch : Option MuteSwitch
  speaker : String
  microphone : String
  copyInviteLink : Bool
  endChat : Bool
  deriving DecidableEq, Repr

/-- What `render` returns. -/
inductive View where
  | picker (p : DevicePicker)
  | main (m : MainPanel)
  deriving DecidableEq, Repr

/-- The method `render`. -/
def render (env : Env) (store : CallStore) (state : State) : View :=
  let outputString := outputString env.t state
  let inputAudioString := inputAudioString env.t state
  let chatId := match store.currentGroupCall with
    | some currentGroupCall => currentGroupCall.chatId
    | none => 0
  let username := env.getChatUsername chatId
  match state.openDeviceSelect with
  | some type =>
    let items :=
      if type == "output" then state.output
      else if type == "inputAudio" then state.inputAudio
      else if type == "inputVideo" then state.inputVideo
      else []
    View.picker
      { title := if type == "output" then env.t "OutputDevice" else env.t "InputDevice"
        type := type
        items := items }
  | none =>
    let canManage := env.canManageVoiceChats chatId
    View.main
      { muteSwitch :=
          if canManage && truthyBool state.allowedChangeMuteNewParticipants then
            some { checked := state.muteNewParticipants }
          else none
        speaker := outputString
        microphone := inputAudioString
        copyInviteLink := truthyStr username
        endChat := canManage }

/-! ## Auxiliary definitions of the statements -/

/-- The label computation shared by `outputString` and `inputAudioString`. -/
def labelFor (t : String → String) (list : List MediaDeviceInfo) (sel : Option String) : String :=
  match list.find? (fun x => some x.deviceId == sel || (!truthyStr sel && x.deviceId == "default")) with
  | none => t "Default"
  | some info =>
    if info.deviceId == "default" || info.label == "" then t "Default" else info.label

/-- The device of the first audio track of the outgoing stream of the current call, when
the call, its stream manager, its outgoing stream, that track and its device all exist. -/
def activeOutgoingDeviceId (store : CallStore) : Option String :=
  store.currentGroupCall.bind fun call =>
    call.streamManager.bind fun manager =>
      manager.outputStream.bind fun stream =>
        stream.getAudioTracks.head?.bind fun track => track.settingsDeviceId

/-- The no-op guard of input-audio selection is passed: a current call with a stream
manager exists, and the device is neither the active outgoing one nor the staged one. -/
def passesGuard (store : CallStore) (deviceId : String) (st : State) : Bool :=
  (store.currentGroupCall.bind fun call => call.streamManager).isSome
    && activeOutgoingDeviceId store != some deviceId
    && st.inputAudioDeviceId != some deviceId

/-- The `stop()` calls on the audio tracks of the staged stream, in track order. -/
def stagedStops (st : State) : List Effect :=
  match st.inputAudioStream with
  | some stream => stream.getAudioTracks.map Effect.stopTrack
  | none => []

/-- The chat of the current call, `0` when there is no current call. -/
def currentChatId (store : CallStore) : Int :=
  match store.currentGroupCall with
  | some currentGroupCall => currentGroupCall.chatId
  | none => 0

/-! ## Example inputs -/

/-- A panel state whose selected output device `hdmi-2` is no longer in the device list. -/
def unpluggedOutputState : State :=
  { initialState with
    output := [{ deviceId := "default", kind := "audiooutput", label := "Default - Built-in" },
               { deviceId := "usb-1", kind := "audiooutput", label := "USB Speakers" }]
    outputDeviceId := some "hdmi-2" }

/-- The audio track of the microphone `mic-a`. -/
def micATrack : MediaStreamTrack := { id := 7, kind := "audio", settingsDeviceId := some "mic-a" }

/-- A stream captured from `mic-a`. -/
def micAStream : MediaStream := { id := 1, tracks := [micATrack] }

/-- The audio track of the microphone `mic-b`. -/
def micBTrack : MediaStreamTrack := { id := 8, kind := "audio", settingsDeviceId := some "mic-b" }

/-- A stream captured from `mic-b`. -/
def micBStream : MediaStream := { id := 2, tracks := [micBTrack] }

/-- The audio track of the built-in microphone. -/
def builtinTrack : MediaStreamTrack :=
  { id := 3, kind := "audio", settingsDeviceId := some "builtin" }

/-- A stream manager sending from the built-in microphone. -/
def manager42 : StreamManager := { outputStream := some { id := 0, tracks := [builtinTrack] } }

/-- The current call `42` of chat `-1001`. -/
def call42 : CurrentGroupCall :=
  { chatId := -1001, groupCallId := 42, streamManager := some manager42 }

/-- A call store with current call `42` of chat `-1001`, sending from the built-in
microphone; call `42` mutes new participants and allows changing that. -/
def callStore42 : CallStore :=
  { devices := none
    currentGroupCall := some call42
    getOutputDeviceId := none
    getInputAudioDeviceId := none
    getInputVideoDeviceId := none
    get := fun id =>
      if id = some 42 then
        some { id := 42, mute_new_participants := true,
               allowed_change_mute_new_participants := true }
      else none }

/-- A panel state in which the stream of `mic-a` is staged. -/
def stagedState : State :=
  { initialState with inputAudioDeviceId := some "mic-a", inputAudioStream := some micAStream }

/-- A `getStream` that answers every request with the stream of `mic-b`. -/
def getStreamMicB : String → Except String MediaStream := fun _ => Except.ok micBStream

/-- A `getStream` that rejects every request. -/
def getStreamFails : String → Except String MediaStream := fun _ => Except.error "NotFoundError"

/-- The state `stagedState` with the input-audio picker open. -/
def stagedPickerState : State := { stagedState with openDeviceSelect := some "inputAudio" }

/-- A `replaceInputAudioDevice` that resolves. -/
def replaceResolves : MediaStream → Except String Unit := fun _ => Except.ok ()

/-- A `replaceInputAudioDevice` whose promise is rejected. -/
def replaceRejects : MediaStream → Except String Unit :=
  fun _ => Except.error "InvalidStateError"

/-- Props with call id `42` and a close callback. -/
def props42 : Props := { groupCallId := some 42, onClose := true }

/-- An environment in which chat `-1001` has the username `alice` and is managed by the
viewer, and the option `t_me_url` is `https://t.me/`. -/
def envAlice : Env :=
  { t := fun key => key
    getChatUsername := fun chatId => if chatId = -1001 then some "alice" else none
    canManageVoiceChats := fun chatId => chatId == -1001
    optionGet := fun name => if name = "t_me_url" then some { value := "https://t.me/" } else none }

/-! # Theorems -/

/-! ## Device labels (C1) -/

theorem outputString_eq_labelFor (t : String → String) (st : State) :
    outputString t st = labelFor t st.output st.outputDeviceId := rfl

theorem inputAudioString_eq_labelFor (t : String → String) (st : State) :
    inputAudioString t st = labelFor t st.inputAudio st.inputAudioDeviceId := rfl

theorem labelFor_none (t : String → String) (list : List MediaDeviceInfo) :
    labelFor t list none = t "Default" := by
  unfold labelFor
  cases h : list.find? (fun x => some x.deviceId == (none : Option String)
      || (!truthyStr none && x.deviceId == "default")) with
  | none => rfl
  | some d =>
    have hd := List.find?_some h
    simp [truthyStr] at hd
    simp [hd]

theorem labelFor_some (t : String → String) (list : List MediaDeviceInfo) (id : String)
    (hid : id ≠ "") :
    labelFor t list (some id) =
      match list.find? (fun x => x.deviceId == id) with
      | none => t "Default"
      | some d => if id = "default" ∨ d.label = "" then t "Default" else d.label := by
  have hp : (fun x : MediaDeviceInfo => some x.deviceId == some id
      || (!truthyStr (some id) && x.deviceId == "default")) = (fun x => x.deviceId == id) := by
    funext x
    simp [truthyStr, hid]
  unfold labelFor
  rw [hp]
  cases h : list.find? (fun x => x.deviceId == id) with
  | none => rfl
  | some d =>
    have hd := List.find?_some h
    simp at hd
    simp [hd]

theorem labelFor_empty (t : String → String) (list : List MediaDeviceInfo) :
    labelFor t list (some "") =
      match list.find? (fun x => x.deviceId == "" || x.deviceId == "default") with
      | none => t "Default"
      | some d => if d.deviceId = "default" ∨ d.label = "" then t "Default" else d.label := by
  have hp : (fun x : MediaDeviceInfo => some x.deviceId == some ""
      || (!truthyStr (some "") && x.deviceId == "default"))
      = (fun x => x.deviceId == "" || x.deviceId == "default") := by
    funext x
    simp [truthyStr]
  unfold labelFor
  rw [hp]
  cases h : list.find? (fun x => x.deviceId == "" || x.deviceId == "default") with
  | none => rfl
  | some d => simp

/-- C1, as stated, fails: in `unpluggedOutputState` a device id is selected, it is not the
sentinel `default`, and no listed device with that id has an empty label, so the claim
puts the state in its last case; yet `outputString` is `t('Default')`, and it cannot be
the label of the listed device with the selected id because there is none. -/
theorem outputString_absent_device_counterexample :
    unpluggedOutputState.outputDeviceId = some "hdmi-2" ∧
    "hdmi-2" ≠ "default" ∧
    (∀ d ∈ unpluggedOutputState.output, d.deviceId = "hdmi-2" → d.label ≠ "") ∧
    outputString (fun key => key) unpluggedOutputState = "Default" ∧
    ¬ ∃ d ∈ unpluggedOutputState.output,
        d.deviceId = "hdmi-2" ∧ outputString (fun key => key) unpluggedOutputState = d.label := by
  refine ⟨rfl, by decide, ?_, by decide, ?_⟩
  · decide
  · decide

/-- C1 (amended): the labels computed in `render`. With no selected id the label is
`t('Default')`. With a non-empty selected id it is `t('Default')` when no device of the
list has that id, when the id is the sentinel `default`, or when the first device of the
list with that id has an empty label, and otherwise it is the label of that device. With
the empty string as selected id the lookup takes the first device whose id is empty or
`default`, and the same rule applies to it. This holds for `outputString` over the output
list and for `inputAudioString` over the input-audio list. -/
theorem device_label_characterisation (t : String → String) (st : State) :
    outputString t st =
      (match st.outputDeviceId with
       | none => t "Default"
       | some id =>
         if id = "" then
           match st.output.find? (fun x => x.deviceId == "" || x.deviceId == "default") with
           | none => t "Default"
           | some d => if d.deviceId = "default" ∨ d.label = "" then t "Default" else d.label
         else
           match st.output.find? (fun x => x.deviceId == id) with
           | none => t "Default"
           | some d => if id = "default" ∨ d.label = "" then t "Default" else d.label) ∧
    inputAudioString t st =
      (match st.inputAudioDeviceId with
       | none => t "Default"
       | some id =>
         if id = "" then
           match st.inputAudio.find? (fun x => x.deviceId == "" || x.deviceId == "default") with
           | none => t "Default"
           | some d => if d.deviceId = "default" ∨ d.label = "" then t "Default" else d.label
         else
           match st.inputAudio.find? (fun x => x.deviceId == id) with
           | none => t "Default"
           | some d => if id = "default" ∨ d.label = "" then t "Default" else d.label) := by
  constructor
  · rw [outputString_eq_labelFor]
    cases hsel : st.outputDeviceId with
    | none => exact labelFor_none t st.output
    | some id =>
      by_cases hid : id = ""
      · subst hid
        simpa using labelFor_empty t st.output
      · simpa [hid] using labelFor_some t st.output id hid
  · rw [inputAudioString_eq_labelFor]
    cases hsel : st.inputAudioDeviceId with
    | none => exact labelFor_none t st.inputAudio
    | some id =>
      by_cases hid : id = ""
      · subst hid
        simpa using labelFor_empty t st.inputAudio
      · simpa [hid] using labelFor_some t st.inputAudio id hid

/-! ## Input-audio selection: the guard -/

theorem handleSelectDevice_blocked (store : CallStore)
    (getStream : String → Except String MediaStream) (deviceId : String) (st : State)
    (h : passesGuard store deviceId st = false) :
    handleSelectDevice store getStream "inputAudio" deviceId st =
      { state := handleCloseDeviceSelect st, effects := [], completion := Completion.resolved } := by
  unfold handleSelectDevice
  rw [if_neg (by decide), if_pos (by decide)]
  unfold passesGuard activeOutgoingDeviceId at h
  cases hc : store.currentGroupCall with
  | none => rfl
  | some call =>
    cases hm : call.streamManager with
    | none => simp [hm]
    | some manager =>
      simp only [hc, hm, Option.bind] at h
      cases ho : manager.outputStream with
      | none =>
        simp only [ho] at h
        simp at h
        simp [hm, ho, handleCloseDeviceSelect, h]
      | some out =>
        cases hh : out.getAudioTracks.head? with
        | none =>
          simp only [ho, hh] at h
          simp at h
          simp [hm, ho, hh, handleCloseDeviceSelect, h]
        | some track =>
          simp only [ho, hh] at h
          simp at h
          by_cases ht : track.settingsDeviceId = some deviceId
          · simp [hm, ho, hh, ht]
          · simp [hm, ho, hh, ht, handleCloseDeviceSelect, h ht]

theorem handleSelectDevice_passed (store : CallStore)
    (getStream : String → Except String MediaStream) (deviceId : String) (st : State)
    (h : passesGuard store deviceId st = true) :
    handleSelectDevice store getStream "inputAudio" deviceId st =
      match getStream deviceId with
      | Except.error e =>
        { state := handleCloseDeviceSelect st
          effects := stagedStops st ++ [Effect.getStream deviceId]
          completion := Completion.rejected e }
      | Except.ok stream =>
        match stream.getAudioTracks.head? with
        | none =>
          { state := handleCloseDeviceSelect st
            effects := stagedStops st ++ [Effect.getStream deviceId]
            completion := Completion.rejected "TypeError" }
        | some _ =>
          { state := { handleCloseDeviceSelect st with
                        inputAudioDeviceId := some deviceId
                        inputAudioStream := some stream }
            effects := stagedStops st
              ++ [Effect.getStream deviceId, Effect.consoleLog deviceId stream]
            completion := Completion.resolved } := by
  unfold handleSelectDevice
  rw [if_neg (by decide), if_pos (by decide)]
  unfold passesGuard activeOutgoingDeviceId at h
  cases hc : store.currentGroupCall with
  | none => simp [hc] at h
  | some call =>
    cases hm : call.streamManager with
    | none => simp [hc, hm] at h
    | some manager =>
      simp only [hc, hm, Option.bind] at h
      have hstaged : st.inputAudioDeviceId ≠ some deviceId := by
        intro hcontra
        simp [hcontra] at h
      have hactive : (match manager.outputStream with
          | some outputStream =>
            match outputStream.getAudioTracks.head? with
            | some audioTrack => audioTrack.settingsDeviceId == some deviceId
            | none => false
          | none => false) = false := by
        cases ho : manager.outputStream with
        | none => rfl
        | some out =>
          cases hh : out.getAudioTracks.head? with
          | none => simp [hh]
          | some track =>
            simp only [ho, hh] at h
            simp at h
            simpa [hh] using h.1
      simp only [hm, hactive]
      simp only [handleCloseDeviceSelect, stagedStops]
      have hstaged2 : (st.inputAudioDeviceId == some deviceId) = false := by
        simpa using hstaged
      simp only [hstaged2]
      cases hg : getStream deviceId with
      | error e => simp
      | ok stream =>
        cases hh : stream.getAudioTracks.head? with
        | none => simp [hh]
        | some track => simp [hh]

theorem passesGuard_of_parts (store : CallStore) (deviceId : String) (st : State)
    (call : CurrentGroupCall) (manager : StreamManager)
    (hcall : store.currentGroupCall = some call) (hman : call.streamManager = some manager)
    (hactive : activeOutgoingDeviceId store ≠ some deviceId)
    (hstaged : st.inputAudioDeviceId ≠ some deviceId) :
    passesGuard store deviceId st = true := by
  unfold passesGuard
  simp [hcall, hman, hactive, hstaged]

theorem getAudioTracks_of_audio_only (s : MediaStream)
    (h : ∀ x ∈ s.tracks, x.kind = "audio") : s.getAudioTracks = s.tracks := by
  unfold MediaStream.getAudioTracks
  apply List.filter_eq_self.mpr
  intro x hx
  simp [h x hx]

/-- Staged streams stay audio-only: when every stream that `getStream` answers has only
audio tracks (the request asks for no video) and the staged stream, if any, has only audio
tracks, the stream staged after `handleSelectDevice` has only audio tracks. -/
theorem handleSelectDevice_keeps_audio_only (store : CallStore)
    (getStream : String → Except String MediaStream) (type deviceId : String) (st : State)
    (hget : ∀ d s, getStream d = Except.ok s → ∀ x ∈ s.tracks, x.kind = "audio")
    (hst : ∀ s, st.inputAudioStream = some s → ∀ x ∈ s.tracks, x.kind = "audio") :
    ∀ s, (handleSelectDevice store getStream type deviceId st).state.inputAudioStream = some s →
      ∀ x ∈ s.tracks, x.kind = "audio" := by
  intro s hs
  by_cases hout : type = "output"
  · subst hout
    exact hst s hs
  · by_cases hin : type = "inputAudio"
    · subst hin
      cases hg : passesGuard store deviceId st with
      | false =>
        rw [handleSelectDevice_blocked store getStream deviceId st hg] at hs
        exact hst s hs
      | true =>
        rw [handleSelectDevice_passed store getStream deviceId st hg] at hs
        cases hr : getStream deviceId with
        | error e =>
          rw [hr] at hs
          exact hst s hs
        | ok stream =>
          rw [hr] at hs
          cases hh : stream.getAudioTracks.head? with
          | none =>
            simp only [hh] at hs
            exact hst s hs
          | some track =>
            simp only [hh] at hs
            have hsame : stream = s := Option.some.inj hs
            rw [← hsame]
            exact hget deviceId stream hr
    · have hs2 : st.inputAudioStream = some s := by
        unfold handleSelectDevice at hs
        simpa [hout, hin, handleCloseDeviceSelect] using hs
      exact hst s hs2

/-! ## Input-audio selection (C2, C3, C10) -/

/-- C2: when `deviceId` is the device of the first audio track of the outgoing stream of
the current call, or is the staged `inputAudioDeviceId`, `handleSelectDevice('inputAudio',
deviceId)` makes no call at all (so it stops no track and requests no stream), leaves
`inputAudioStream` and `inputAudioDeviceId` unchanged, and completes normally. -/
theorem select_inputAudio_same_device_noop (store : CallStore)
    (getStream : String → Except String MediaStream) (deviceId : String) (st : State)
    (h : activeOutgoingDeviceId store = some deviceId ∨ st.inputAudioDeviceId = some deviceId) :
    (handleSelectDevice store getStream "inputAudio" deviceId st).effects = [] ∧
    (∀ track, Effect.stopTrack track
      ∉ (handleSelectDevice store getStream "inputAudio" deviceId st).effects) ∧
    (∀ d, Effect.getStream d
      ∉ (handleSelectDevice store getStream "inputAudio" deviceId st).effects) ∧
    (handleSelectDevice store getStream "inputAudio" deviceId st).state.inputAudioStream
      = st.inputAudioStream ∧
    (handleSelectDevice store getStream "inputAudio" deviceId st).state.inputAudioDeviceId
      = st.inputAudioDeviceId ∧
    (handleSelectDevice store getStream "inputAudio" deviceId st).completion
      = Completion.resolved := by
  have hg : passesGuard store deviceId st = false := by
    unfold passesGuard
    rcases h with h | h
    · simp [h]
    · simp [h]
  rw [handleSelectDevice_blocked store getStream deviceId st hg]
  simp [handleCloseDeviceSelect]

theorem select_inputAudio_same_device_noop_witness :
    (activeOutgoingDeviceId callStore42 = some "builtin"
      ∨ stagedState.inputAudioDeviceId = some "builtin") ∧
    (handleSelectDevice callStore42 getStreamMicB "inputAudio" "builtin" stagedState).effects
      = [] ∧
    (∀ track, Effect.stopTrack track
      ∉ (handleSelectDevice callStore42 getStreamMicB "inputAudio" "builtin" stagedState).effects) ∧
    (∀ d, Effect.getStream d
      ∉ (handleSelectDevice callStore42 getStreamMicB "inputAudio" "builtin" stagedState).effects) ∧
    (handleSelectDevice callStore42 getStreamMicB "inputAudio" "builtin"
      stagedState).state.inputAudioStream = stagedState.inputAudioStream ∧
    (handleSelectDevice callStore42 getStreamMicB "inputAudio" "builtin"
      stagedState).state.inputAudioDeviceId = stagedState.inputAudioDeviceId ∧
    (handleSelectDevice callStore42 getStreamMicB "inputAudio" "builtin" stagedState).completion
      = Completion.resolved :=
  ⟨Or.inl (by decide),
   select_inputAudio_same_device_noop callStore42 getStreamMicB "builtin" stagedState
     (Or.inl (by decide))⟩

/-- C3: with a staged stream `old` and a `deviceId` that passes the guard (a current call
with a stream manager exists, `deviceId` is neither the device of the active outgoing
track nor `inputAudioDeviceId`), `handleSelectDevice('inputAudio', deviceId)` first stops
every audio track of `old`, then issues the one `getStream` request for `deviceId`, and
stops or requests nothing after it; `old` being a stream acquired without video, these are
all its tracks. When the request answers with a stream (which, for an audio request, has
an audio track), the state holds that stream as `inputAudioStream` and `deviceId` as
`inputAudioDeviceId`, and the handler completes normally. -/
theorem select_inputAudio_restages (store : CallStore)
    (getStream : String → Except String MediaStream) (deviceId : String) (st : State)
    (call : CurrentGroupCall) (manager : StreamManager) (old : MediaStream)
    (hcall : store.currentGroupCall = some call) (hman : call.streamManager = some manager)
    (hactive : activeOutgoingDeviceId store ≠ some deviceId)
    (hstaged : st.inputAudioDeviceId ≠ some deviceId)
    (hold : st.inputAudioStream = some old) :
    (∃ rest,
      (handleSelectDevice store getStream "inputAudio" deviceId st).effects
        = old.getAudioTracks.map Effect.stopTrack ++ Effect.getStream deviceId :: rest ∧
      (∀ track, Effect.stopTrack track ∉ rest) ∧ (∀ d, Effect.getStream d ∉ rest)) ∧
    ((∀ x ∈ old.tracks, x.kind = "audio") →
      ∃ rest,
        (handleSelectDevice store getStream "inputAudio" deviceId st).effects
          = old.tracks.map Effect.stopTrack ++ Effect.getStream deviceId :: rest ∧
        (∀ track, Effect.stopTrack track ∉ rest) ∧ (∀ d, Effect.getStream d ∉ rest)) ∧
    (∀ stream, getStream deviceId = Except.ok stream → stream.getAudioTracks ≠ [] →
      (handleSelectDevice store getStream "inputAudio" deviceId st).state.inputAudioStream
        = some stream ∧
      (handleSelectDevice store getStream "inputAudio" deviceId st).state.inputAudioDeviceId
        = some deviceId ∧
      (handleSelectDevice store getStream "inputAudio" deviceId st).completion
        = Completion.resolved) := by
  have hg := passesGuard_of_parts store deviceId st call manager hcall hman hactive hstaged
  have hstops : stagedStops st = old.getAudioTracks.map Effect.stopTrack := by
    simp [stagedStops, hold]
  have hfirst : ∃ rest,
      (handleSelectDevice store getStream "inputAudio" deviceId st).effects
        = old.getAudioTracks.map Effect.stopTrack ++ Effect.getStream deviceId :: rest ∧
      (∀ track, Effect.stopTrack track ∉ rest) ∧ (∀ d, Effect.getStream d ∉ rest) := by
    rw [handleSelectDevice_passed store getStream deviceId st hg, hstops]
    cases hgs : getStream deviceId with
    | error e => exact ⟨[], by simp, by simp, by simp⟩
    | ok stream =>
      cases hh : stream.getAudioTracks.head? with
      | none => exact ⟨[], by simp [hh], by simp, by simp⟩
      | some track =>
        exact ⟨[Effect.consoleLog deviceId stream], by simp [hh], by simp, by simp⟩
  refine ⟨hfirst, ?_, ?_⟩
  · intro haudio
    rw [← getAudioTracks_of_audio_only old haudio]
    exact hfirst
  · intro stream hok hne
    rw [handleSelectDevice_passed store getStream deviceId st hg, hok]
    cases hh : stream.getAudioTracks.head? with
    | none => exact absurd (List.head?_eq_none_iff.mp hh) hne
    | some track => simp [hh]

theorem select_inputAudio_restages_witness :
    (callStore42.currentGroupCall = some call42 ∧ call42.streamManager = some manager42 ∧
      activeOutgoingDeviceId callStore42 ≠ some "mic-b" ∧
      stagedState.inputAudioDeviceId ≠ some "mic-b" ∧
      stagedState.inputAudioStream = some micAStream) ∧
    ((∃ rest,
      (handleSelectDevice callStore42 getStreamMicB "inputAudio" "mic-b" stagedState).effects
        = micAStream.getAudioTracks.map Effect.stopTrack ++ Effect.getStream "mic-b" :: rest ∧
      (∀ track, Effect.stopTrack track ∉ rest) ∧ (∀ d, Effect.getStream d ∉ rest)) ∧
    ((∀ x ∈ micAStream.tracks, x.kind = "audio") →
      ∃ rest,
        (handleSelectDevice callStore42 getStreamMicB "inputAudio" "mic-b" stagedState).effects
          = micAStream.tracks.map Effect.stopTrack ++ Effect.getStream "mic-b" :: rest ∧
        (∀ track, Effect.stopTrack track ∉ rest) ∧ (∀ d, Effect.getStream d ∉ rest)) ∧
    (∀ stream, getStreamMicB "mic-b" = Except.ok stream → stream.getAudioTracks ≠ [] →
      (handleSelectDevice callStore42 getStreamMicB "inputAudio" "mic-b"
        stagedState).state.inputAudioStream = some stream ∧
      (handleSelectDevice callStore42 getStreamMicB "inputAudio" "mic-b"
        stagedState).state.inputAudioDeviceId = some "mic-b" ∧
      (handleSelectDevice callStore42 getStreamMicB "inputAudio" "mic-b" stagedState).completion
        = Completion.resolved)) :=
  ⟨⟨rfl, rfl, by decide, by decide, rfl⟩,
   select_inputAudio_restages callStore42 getStreamMicB "mic-b" stagedState call42 manager42
     micAStream rfl rfl (by decide) (by decide) rfl⟩

/-- C10, as stated, fails: `mic-a` is staged and the request for `mic-b` is rejected; the
handler ends in an error and the state still holds the stream of `mic-a`, but the track
of that stream has been stopped. -/
theorem select_inputAudio_failure_counterexample :
    (handleSelectDevice callStore42 getStreamFails "inputAudio" "mic-b" stagedState).completion
      = Completion.rejected "NotFoundError" ∧
    (handleSelectDevice callStore42 getStreamFails "inputAudio" "mic-b"
      stagedState).state.inputAudioStream = some micAStream ∧
    micATrack ∈ micAStream.tracks ∧
    Effect.stopTrack micATrack
      ∈ (handleSelectDevice callStore42 getStreamFails "inputAudio" "mic-b" stagedState).effects := by
  decide

/-- C10 (amended): when `handleSelectDevice('inputAudio', deviceId)` makes its `getStream`
request and the request is rejected with `e`, the handler ends rejected with `e`,
`inputAudioDeviceId` and `inputAudioStream` are unchanged, and the calls made are the
`stop()` of every audio track of the staged stream followed by the request: the stream
still held in `inputAudioStream` has had its audio tracks stopped. -/
theorem select_inputAudio_failure (store : CallStore)
    (getStream : String → Except String MediaStream) (deviceId : String) (st : State)
    (e : String)
    (hreq : Effect.getStream deviceId
      ∈ (handleSelectDevice store getStream "inputAudio" deviceId st).effects)
    (hfail : getStream deviceId = Except.error e) :
    (handleSelectDevice store getStream "inputAudio" deviceId st).completion
      = Completion.rejected e ∧
    (handleSelectDevice store getStream "inputAudio" deviceId st).state.inputAudioDeviceId
      = st.inputAudioDeviceId ∧
    (handleSelectDevice store getStream "inputAudio" deviceId st).state.inputAudioStream
      = st.inputAudioStream ∧
    (handleSelectDevice store getStream "inputAudio" deviceId st).effects
      = stagedStops st ++ [Effect.getStream deviceId] ∧
    (∀ s, st.inputAudioStream = some s → ∀ track ∈ s.getAudioTracks,
      Effect.stopTrack track
        ∈ (handleSelectDevice store getStream "inputAudio" deviceId st).effects) := by
  have hg : passesGuard store deviceId st = true := by
    cases hb : passesGuard store deviceId st with
    | true => rfl
    | false =>
      rw [handleSelectDevice_blocked store getStream deviceId st hb] at hreq
      simp at hreq
  rw [handleSelectDevice_passed store getStream deviceId st hg, hfail]
  refine ⟨rfl, rfl, rfl, rfl, ?_⟩
  intro s hs track htrack
  simp [stagedStops, hs, htrack]

theorem select_inputAudio_failure_witness :
    (Effect.getStream "mic-b"
      ∈ (handleSelectDevice callStore42 getStreamFails "inputAudio" "mic-b"
          stagedPickerState).effects ∧
      getStreamFails "mic-b" = Except.error "NotFoundError") ∧
    ((handleSelectDevice callStore42 getStreamFails "inputAudio" "mic-b"
        stagedPickerState).completion
      = Completion.rejected "NotFoundError" ∧
    (handleSelectDevice callStore42 getStreamFails "inputAudio" "mic-b"
        stagedPickerState).state.inputAudioDeviceId
      = some "mic-a" ∧
    (handleSelectDevice callStore42 getStreamFails "inputAudio" "mic-b"
        stagedPickerState).state.inputAudioStream
      = some micAStream ∧
    (handleSelectDevice callStore42 getStreamFails "inputAudio" "mic-b"
        stagedPickerState).effects
      = stagedStops stagedPickerState
          ++ [Effect.getStream "mic-b"] ∧
    (∀ s, some micAStream = some s → ∀ track ∈ s.getAudioTracks,
      Effect.stopTrack track
        ∈ (handleSelectDevice callStore42 getStreamFails "inputAudio" "mic-b"
            stagedPickerState).effects)) :=
  ⟨⟨by decide, rfl⟩,
   select_inputAudio_failure callStore42 getStreamFails "mic-b"
     stagedPickerState "NotFoundError"
     (by decide) rfl⟩

/-! ## Output selection (C5) -/

theorem handleDone_no_output_call (replaceInputAudioDevice : MediaStream → Except String Unit)
    (props : Props) (st : State) (d : String) :
    Effect.setOutputDeviceId d ∉ (handleDone replaceInputAudioDevice props st).effects := by
  unfold handleDone
  cases hs : st.inputAudioStream with
  | none => cases hp : props.onClose <;> simp [hp]
  | some stream =>
    cases hr : replaceInputAudioDevice stream with
    | error e => simp [hr]
    | ok u => cases hp : props.onClose <;> simp [hr, hp]

/-- C5, as stated, fails: selecting the output device `usb-1` calls
`CallStore.setOutputDeviceId('usb-1')` at once, and the later `handleDone` makes no call
about the output device. -/
theorem select_output_counterexample :
    Effect.setOutputDeviceId "usb-1"
      ∈ (handleSelectDevice callStore42 getStreamMicB "output" "usb-1"
          unpluggedOutputState).effects ∧
    (handleDone replaceResolves props42
      (handleSelectDevice callStore42 getStreamMicB "output" "usb-1"
        unpluggedOutputState).state).effects = [Effect.onClose] := by
  decide

/-- C5 (amended): `handleSelectDevice('output', deviceId)` closes the picker, sets the
local `outputDeviceId` to `deviceId`, and makes exactly one call, at once:
`CallStore.setOutputDeviceId(deviceId)`. It stops no track and requests or replaces no
stream, and it completes normally. Nothing is deferred: `handleDone` on the resulting
state makes no call about the output device. -/
theorem select_output_sets_store_and_state (store : CallStore)
    (getStream : String → Except String MediaStream) (deviceId : String) (st : State)
    (replaceInputAudioDevice : MediaStream → Except String Unit) (props : Props) :
    (handleSelectDevice store getStream "output" deviceId st).state
      = { st with openDeviceSelect := none, outputDeviceId := some deviceId } ∧
    (handleSelectDevice store getStream "output" deviceId st).effects
      = [Effect.setOutputDeviceId deviceId] ∧
    (handleSelectDevice store getStream "output" deviceId st).completion
      = Completion.resolved ∧
    (∀ d, Effect.setOutputDeviceId d
      ∉ (handleDone replaceInputAudioDevice props
          (handleSelectDevice store getStream "output" deviceId st).state).effects) := by
  exact ⟨rfl, rfl, rfl, fun d => handleDone_no_output_call replaceInputAudioDevice props _ d⟩

/-! ## Confirmation (C4) -/

/-- C4, as stated, fails: with the stream of `mic-a` staged, a close callback passed and
the promise of `CallStore.replaceInputAudioDevice` rejected, `handleDone` makes the
replacement call and ends in an error without invoking `onClose`. -/
theorem handleDone_rejected_counterexample :
    stagedState.inputAudioStream = some micAStream ∧
    props42.onClose = true ∧
    (handleDone replaceRejects props42 stagedState).effects
      = [Effect.replaceInputAudioDevice micAStream] ∧
    Effect.onClose ∉ (handleDone replaceRejects props42 stagedState).effects ∧
    (handleDone replaceRejects props42 stagedState).completion
      = Completion.rejected "InvalidStateError" := by
  decide

/-- C4 (amended): `handleDone` calls `CallStore.replaceInputAudioDevice` exactly when a
stream is staged, once, and with the staged stream; with no staged stream it makes no
replacement call. When the awaited replacement call, if one is made, resolves, the calls of
the handler are the replacement call (if any) followed by one `onClose` call when a
callback was passed, and the handler completes normally. When the awaited replacement call
is rejected, the replacement call is the only call: the handler ends in that error and
`onClose` is not invoked. -/
theorem handleDone_replaces_then_closes
    (replaceInputAudioDevice : MediaStream → Except String Unit) (props : Props) (st : State) :
    (∀ s, Effect.replaceInputAudioDevice s
        ∈ (handleDone replaceInputAudioDevice props st).effects ↔ st.inputAudioStream = some s) ∧
    ((handleDone replaceInputAudioDevice props st).effects.filter
        (fun e => e matches Effect.replaceInputAudioDevice _)
      = match st.inputAudioStream with
        | some s => [Effect.replaceInputAudioDevice s]
        | none => []) ∧
    ((∀ s, st.inputAudioStream = some s → replaceInputAudioDevice s = Except.ok ()) →
      (handleDone replaceInputAudioDevice props st).effects
        = (match st.inputAudioStream with
           | some s => [Effect.replaceInputAudioDevice s]
           | none => [])
          ++ (if props.onClose then [Effect.onClose] else []) ∧
      (handleDone replaceInputAudioDevice props st).completion = Completion.resolved) ∧
    (∀ s e, st.inputAudioStream = some s → replaceInputAudioDevice s = Except.error e →
      (handleDone replaceInputAudioDevice props st).effects
        = [Effect.replaceInputAudioDevice s] ∧
      Effect.onClose ∉ (handleDone replaceInputAudioDevice props st).effects ∧
      (handleDone replaceInputAudioDevice props st).completion = Completion.rejected e) := by
  unfold handleDone
  cases hs : st.inputAudioStream with
  | none =>
    cases hp : props.onClose <;> simp [hp]
  | some stream =>
    cases hr : replaceInputAudioDevice stream with
    | error e =>
      refine ⟨?_, ?_, ?_, ?_⟩
      · intro s
        simp [hr, eq_comm]
      · simp [hr]
      · intro hres
        have := hres stream rfl
        rw [hr] at this
        cases this
      · intro s e2 hse hre
        cases hse
        rw [hr] at hre
        cases hre
        simp [hr]
    | ok u =>
      refine ⟨?_, ?_, ?_, ?_⟩
      · intro s
        cases hp : props.onClose <;> simp [hr, hp, eq_comm]
      · cases hp : props.onClose <;> simp [hr, hp]
      · intro _
        cases hp : props.onClose <;> simp [hr, hp]
      · intro s e2 hse hre
        cases hse
        rw [hr] at hre
        cases hre

theorem handleDone_replaces_then_closes_witness :
    (∀ s, stagedState.inputAudioStream = some s → replaceResolves s = Except.ok ()) ∧
    ((handleDone replaceResolves props42 stagedState).effects
      = [Effect.replaceInputAudioDevice micAStream, Effect.onClose] ∧
    (handleDone replaceResolves props42 stagedState).completion = Completion.resolved) ∧
    (stagedState.inputAudioStream = some micAStream ∧
      replaceRejects micAStream = Except.error "InvalidStateError") ∧
    ((handleDone replaceRejects props42 stagedState).effects
      = [Effect.replaceInputAudioDevice micAStream] ∧
    Effect.onClose ∉ (handleDone replaceRejects props42 stagedState).effects ∧
    (handleDone replaceRejects props42 stagedState).completion
      = Completion.rejected "InvalidStateError") :=
  ⟨fun _ _ => rfl,
   (handleDone_replaces_then_closes replaceResolves props42 stagedState).2.2.1
     (fun _ _ => rfl),
   ⟨rfl, rfl⟩,
   (handleDone_replaces_then_closes replaceRejects props42 stagedState).2.2.2
     micAStream "InvalidStateError" rfl rfl⟩

/-! ## Mute new participants (C6, C7, C9) -/

/-- C6: `handleMuteNewParticipants` sets the local flag to the negation of its previous
value (a previous `true` gives `false`, a previous `false` or an unset flag gives `true`),
changes no other field, and makes one call, `CallStore.toggleMuteNewParticipants`, with the
`groupCallId` of the props and the new value of the flag. The handler reads no answer of
the store. -/
theorem handleMuteNewParticipants_flips_and_sends (props : Props) (st : State) :
    (∀ b, ((handleMuteNewParticipants props
        { st with muteNewParticipants := some b }).1).muteNewParticipants = some (!b)) ∧
    ((handleMuteNewParticipants props
        { st with muteNewParticipants := none }).1).muteNewParticipants = some true ∧
    (∃ v, (handleMuteNewParticipants props st).1 = { st with muteNewParticipants := some v } ∧
      (handleMuteNewParticipants props st).2
        = [Effect.toggleMuteNewParticipants props.groupCallId v] ∧
      v = !truthyBool st.muteNewParticipants) := by
  refine ⟨fun b => rfl, rfl, !truthyBool st.muteNewParticipants, rfl, rfl, rfl⟩

/-- C7: with no device picker open `render` returns the main panel; its mute switch is
present exactly when `canManageVoiceChats(chatId)` holds and the state's
`allowedChangeMuteNewParticipants` holds, and a present switch is checked as the state's
`muteNewParticipants` says. After `getDerivedStateFromProps` has taken the call `g` of a
new `groupCallId` from the store, the switch is absent when `g` does not allow changing the
setting, whatever the management rights, and it is present and checked when `g` mutes new
participants, allows changing that, and the viewer can manage voice chats. -/
theorem mute_switch_rendering (env : Env) (store : CallStore) (st : State)
    (hopen : st.openDeviceSelect = none) :
    (∃ m, render env store st = View.main m ∧
      (m.muteSwitch ≠ none ↔
        env.canManageVoiceChats (currentChatId store) = true
          ∧ st.allowedChangeMuteNewParticipants = some true) ∧
      (∀ sw, m.muteSwitch = some sw → sw.checked = st.muteNewParticipants)) ∧
    (∀ (props : Props) (g : GroupCall), st.prevGroupCallId ≠ props.groupCallId →
      store.get props.groupCallId = some g →
      ∃ m, render env store (getDerivedStateFromProps store props st) = View.main m ∧
        (g.allowed_change_mute_new_participants = false → m.muteSwitch = none) ∧
        (g.mute_new_participants = true → g.allowed_change_mute_new_participants = true →
          env.canManageVoiceChats (currentChatId store) = true →
          m.muteSwitch = some { checked := some true })) := by
  constructor
  · unfold render
    simp only [hopen]
    refine ⟨_, rfl, ?_, ?_⟩
    · cases hc : env.canManageVoiceChats (currentChatId store) <;>
        cases ha : st.allowedChangeMuteNewParticipants with
        | none => simp [currentChatId] at hc ⊢; simp [hc, truthyBool]
        | some b => cases b <;> (simp [currentChatId] at hc ⊢; simp [hc, truthyBool])
    · intro sw hsw
      simp only at hsw
      split at hsw
      · cases hsw
        rfl
      · cases hsw
  · intro props g hprev hget
    have hne : (st.prevGroupCallId != props.groupCallId) = true := by
      simpa using hprev
    unfold render getDerivedStateFromProps
    simp only [hne, hget, if_true, hopen]
    refine ⟨_, rfl, ?_, ?_⟩
    · intro hallowed
      simp [hallowed, truthyBool]
    · intro hmute hallowed hcan
      simp only [currentChatId] at hcan
      simp [hmute, hallowed, hcan, truthyBool]

theorem mute_switch_rendering_witness :
    initialState.openDeviceSelect = none ∧
    (∃ m, render envAlice callStore42 (getDerivedStateFromProps callStore42 props42 initialState)
        = View.main m ∧
      m.muteSwitch = some { checked := some true }) :=
  ⟨rfl, by
    obtain ⟨m, hm, _, hchecked⟩ :=
      (mute_switch_rendering envAlice callStore42 initialState rfl).2 props42
        { id := 42, mute_new_participants := true, allowed_change_mute_new_participants := true }
        (by decide) rfl
    exact ⟨m, hm, hchecked rfl rfl (by decide)⟩⟩

/-- C9: when the event carries a `group_call` whose id is the `groupCallId` of the props,
`onUpdateGroupCall` sets `muteNewParticipants` and `allowedChangeMuteNewParticipants` to
the values of the event and changes no other field of the state; when the event carries no
`group_call`, or one with another id, the state is unchanged. -/
theorem onUpdateGroupCall_frame (props : Props) (st : State) :
    (∀ g : GroupCall, props.groupCallId = some g.id →
      onUpdateGroupCall props (some g) st
        = { st with
            muteNewParticipants := some g.mute_new_participants
            allowedChangeMuteNewParticipants := some g.allowed_change_mute_new_participants }) ∧
    onUpdateGroupCall props none st = st ∧
    (∀ g : GroupCall, props.groupCallId ≠ some g.id →
      onUpdateGroupCall props (some g) st = st) := by
  refine ⟨?_, rfl, ?_⟩
  · intro g hg
    simp [onUpdateGroupCall, hg]
  · intro g hg
    have hne : (some g.id != props.groupCallId) = true := by
      rw [bne_iff_ne]
      exact fun h => hg h.symm
    simp only [onUpdateGroupCall, hne, if_true]

theorem onUpdateGroupCall_frame_witness :
    props42.groupCallId = some (42 : Int) ∧
    onUpdateGroupCall props42
        (some { id := 42, mute_new_participants := true,
                allowed_change_mute_new_participants := false }) stagedPickerState
      = { stagedPickerState with
          muteNewParticipants := some true
          allowedChangeMuteNewParticipants := some false } ∧
    props42.groupCallId ≠ some (7 : Int) ∧
    onUpdateGroupCall props42
        (some { id := 7, mute_new_participants := true,
                allowed_change_mute_new_participants := false }) stagedPickerState
      = stagedPickerState :=
  ⟨rfl,
   (onUpdateGroupCall_frame props42 stagedPickerState).1
     { id := 42, mute_new_participants := true, allowed_change_mute_new_participants := false }
     rfl,
   by decide,
   (onUpdateGroupCall_frame props42 stagedPickerState).2.2
     { id := 7, mute_new_participants := true, allowed_change_mute_new_participants := false }
     (by decide)⟩

/-! ## Invite link (C8) -/

/-- C8: `handleCopyLink` makes no call (no clipboard write, no snackbar) when the chat of
the current call has no username. With a username it copies, once, exactly the value of the
option `t_me_url` followed by the username when that option exists, and
`https://telegram.org/` followed by the username when it does not, and then shows the
snackbar. -/
theorem handleCopyLink_spec (env : Env) (store : CallStore) :
    (truthyStr (env.getChatUsername (currentChatId store)) = false →
      handleCopyLink env store = []) ∧
    (∀ username option, env.getChatUsername (currentChatId store) = some username →
      username ≠ "" → env.optionGet "t_me_url" = some option →
      handleCopyLink env store
        = [Effect.copy (option.value ++ username), Effect.showSnackbar (env.t "LinkCopied")]) ∧
    (∀ username, env.getChatUsername (currentChatId store) = some username →
      username ≠ "" → env.optionGet "t_me_url" = none →
      handleCopyLink env store
        = [Effect.copy ("https://telegram.org/" ++ username),
           Effect.showSnackbar (env.t "LinkCopied")]) := by
  refine ⟨?_, ?_, ?_⟩
  · intro h
    simp only [currentChatId] at h
    simp [handleCopyLink, h]
  · intro username option hu hne hopt
    simp only [currentChatId] at hu
    simp [handleCopyLink, hu, truthyStr, hne, hopt]
  · intro username hu hne hopt
    simp only [currentChatId] at hu
    simp [handleCopyLink, hu, truthyStr, hne, hopt]

theorem handleCopyLink_spec_witness :
    (envAlice.getChatUsername (currentChatId callStore42) = some "alice" ∧ "alice" ≠ "") ∧
    handleCopyLink envAlice callStore42
      = [Effect.copy "https://t.me/alice", Effect.showSnackbar "LinkCopied"] :=
  ⟨⟨rfl, by decide⟩,
   ((handleCopyLink_spec envAlice callStore42).2.1 "alice" { value := "https://t.me/" }
      rfl (by decide) rfl).trans (by decide)⟩

end GroupCallSettings
